import Mathlib

/-!
Verification development for the NBA-app repository: a shallow embedding in
Lean 4 of the pure data transformations and effect traces of the Python
sources, with theorems settling the specification claims.

Conventions of the embedding:
* Python dict records become Lean structures; optional dict keys
  (accessed with .get) become Option fields.
* Monetary amounts and scores that Python holds as floats are embedded as
  exact rationals; decimal literals such as 0.1 and 0.2 become the exact
  fractions 1/10 and 1/5.
* CRM effects are made explicit: the Salesforce connector is an oracle
  function from write calls to Except results, and the executor also
  returns the trace of write calls it issued, so that frame/effect claims
  can be stated.
* Fallible Python code (try/except) becomes Except; a caught exception is
  the error branch of a match.
-/

/-! ## Data model for main2.py execute_action_plan and extra.py report -/

/-- A CRM write call as issued by SalesforceConnector in src/main2.py:
create_task(account_id, subject, description, due_date),
create_case(account_id, subject, description),
update_opportunity(opp_id, stage_name).  The connector exposes no delete
or compensating call, so the trace type has no such constructor. -/
inductive WriteCall where
  | createTask (account_id subject description due_date : String)
  | createCase (account_id subject description : String)
  | updateOpportunity (opp_id stage_name : String)
deriving DecidableEq, Repr

/-- The Salesforce connector as an oracle: each write call either returns
the created record identifier (.ok id) or raises (.error message). -/
def SfOracle : Type := WriteCall → Except String String

/-- The salesforce_action field of a plan step.  The executor in
src/main2.py dispatches on the strings create_task, update_opportunity and
create_case; every other string (e.g. send_email, which the plan prompt
lists as allowed) falls through the if/elif chain. -/
inductive SfAction where
  | create_task
  | update_opportunity
  | create_case
  | other (s : String)
deriving DecidableEq, Repr

/-- One step of an action plan (src/main2.py create_action_plan schema:
type, title, description, due_date, salesforce_action). -/
structure Step where
  salesforce_action : SfAction
  title : String
  description : String
  due_date : String
deriving DecidableEq, Repr

/-- An action plan: the executor reads only the steps list. -/
structure ActionPlan where
  steps : List Step
deriving DecidableEq, Repr

/-- One entry of the results list built by execute_action_plan. -/
structure StepResult where
  step : String
  status : String
  id : Option String
  message : Option String
deriving DecidableEq, Repr

/-- Execution of a single loop iteration of execute_action_plan
(src/main2.py lines 173-215): dispatch on salesforce_action; a create call
that raises is caught and recorded as an error entry; update_opportunity
makes no CRM call and records a pending entry; an unrecognized action makes
no call and records nothing.  Returns the result entries and the CRM write
calls issued by this iteration. -/
def execStep (sf : SfOracle) (account_id : String) (step : Step) :
    List StepResult × List WriteCall :=
  match step.salesforce_action with
  | .create_task =>
      let call := WriteCall.createTask account_id step.title step.description step.due_date
      (match sf call with
       | .ok rid => [{ step := step.title, status := "success", id := some rid, message := none }]
       | .error e => [{ step := step.title, status := "error", id := none, message := some e }],
       [call])
  | .update_opportunity =>
      ([{ step := step.title, status := "pending", id := none,
          message := some "Opportunity update requires manual selection" }], [])
  | .create_case =>
      let call := WriteCall.createCase account_id step.title step.description
      (match sf call with
       | .ok rid => [{ step := step.title, status := "success", id := some rid, message := none }]
       | .error e => [{ step := step.title, status := "error", id := none, message := some e }],
       [call])
  | .other _ => ([], [])

/-- execute_action_plan (src/main2.py lines 169-217): iterate the plan
steps in order, accumulating result entries; also returns the trace of CRM
write calls issued. -/
def execute_action_plan (sf : SfOracle) (account_id : String) (plan : ActionPlan) :
    List StepResult × List WriteCall :=
  plan.steps.foldl
    (fun acc step =>
      let r := execStep sf account_id step
      (acc.1 ++ r.1, acc.2 ++ r.2))
    ([], [])

/-- The execution report of create_execution_report (src/extra.py lines
48-59).  The timestamp is an input of the embedding (datetime.now). -/
structure ExecutionReport where
  timestamp : String
  plan_summary : String
  total_steps : Nat
  successful_steps : Nat
  failed_steps : Nat
  pending_steps : Nat
  details : List StepResult
deriving DecidableEq, Repr

/-- create_execution_report (src/extra.py lines 48-59). -/
def create_execution_report (timestamp : String) (results : List StepResult)
    (action_plan : ActionPlan) : ExecutionReport :=
  { timestamp := timestamp
    plan_summary :=
      match action_plan.steps with
      | [] => "No plan"
      | s :: _ => s.title
    total_steps := action_plan.steps.length
    successful_steps := (results.filter (fun r => r.status = "success")).length
    failed_steps := (results.filter (fun r => r.status = "error")).length
    pending_steps := (results.filter (fun r => r.status = "pending")).length
    details := results }

/-- A step is one the executor dispatches on (any of the three recognized
action strings). -/
def isSupported (step : Step) : Bool :=
  match step.salesforce_action with
  | .create_task => true
  | .update_opportunity => true
  | .create_case => true
  | .other _ => false

/-- A step whose dispatch issues a CRM write call (create_task or
create_case; update_opportunity only records a pending entry). -/
def isWriteStep (step : Step) : Bool :=
  match step.salesforce_action with
  | .create_task => true
  | .create_case => true
  | _ => false

/-- The CRM write call a given step would issue, if any. -/
def stepCall (account_id : String) (step : Step) : Option WriteCall :=
  match step.salesforce_action with
  | .create_task => some (WriteCall.createTask account_id step.title step.description step.due_date)
  | .create_case => some (WriteCall.createCase account_id step.title step.description)
  | _ => none

/-- Whether the oracle raises on the write call of a given step (false for
non-write steps). -/
def stepFails (sf : SfOracle) (account_id : String) (step : Step) : Bool :=
  match stepCall account_id step with
  | some c => match sf c with
    | .ok _ => false
    | .error _ => true
  | none => false

/-! ## Helper lemmas about the executor -/

/-- Folding the executor body from any accumulator prepends the
accumulator to a fresh run: the loop only appends to results and trace. -/
theorem execute_foldl_shift (sf : SfOracle) (aid : String) (steps : List Step)
    (acc : List StepResult × List WriteCall) :
    steps.foldl
      (fun acc step =>
        let r := execStep sf aid step
        (acc.1 ++ r.1, acc.2 ++ r.2)) acc
      = (acc.1 ++ (execute_action_plan sf aid ⟨steps⟩).1,
         acc.2 ++ (execute_action_plan sf aid ⟨steps⟩).2) := by
  induction steps generalizing acc with
  | nil => simp [execute_action_plan]
  | cons s t ih =>
      simp only [execute_action_plan, List.foldl_cons]
      rw [ih, ih]
      simp [List.append_assoc]

/-- Cons characterization of the executor. -/
theorem execute_cons (sf : SfOracle) (aid : String) (s : Step) (t : List Step) :
    execute_action_plan sf aid ⟨s :: t⟩ =
      ((execStep sf aid s).1 ++ (execute_action_plan sf aid ⟨t⟩).1,
       (execStep sf aid s).2 ++ (execute_action_plan sf aid ⟨t⟩).2) := by
  simp only [execute_action_plan, List.foldl_cons]
  rw [execute_foldl_shift]
  simp [execute_action_plan]

/-- Every CRM call issued while executing one step is the write call of
that step. -/
theorem execStep_call_mem (sf : SfOracle) (aid : String) (s : Step) (call : WriteCall)
    (h : call ∈ (execStep sf aid s).2) : stepCall aid s = some call := by
  cases hact : s.salesforce_action with
  | create_task =>
      simp only [execStep, hact, List.mem_singleton] at h
      simp [stepCall, hact, h]
  | create_case =>
      simp only [execStep, hact, List.mem_singleton] at h
      simp [stepCall, hact, h]
  | update_opportunity => simp [execStep, hact] at h
  | other s' => simp [execStep, hact] at h

/-- A write step yields exactly one result entry, whose step field is the
step title and whose status is error exactly when the oracle raises on its
call, success otherwise. -/
theorem execStep_write_entry (sf : SfOracle) (aid : String) (s : Step)
    (h : isWriteStep s = true) :
    ∃ i m, (execStep sf aid s).1 =
      [{ step := s.title,
         status := if stepFails sf aid s then "error" else "success",
         id := i, message := m }] := by
  cases hact : s.salesforce_action with
  | create_task =>
      cases hsf : sf (WriteCall.createTask aid s.title s.description s.due_date) with
      | ok rid =>
          exact ⟨some rid, none, by simp [execStep, hact, hsf, stepFails, stepCall]⟩
      | error e =>
          exact ⟨none, some e, by simp [execStep, hact, hsf, stepFails, stepCall]⟩
  | create_case =>
      cases hsf : sf (WriteCall.createCase aid s.title s.description) with
      | ok rid =>
          exact ⟨some rid, none, by simp [execStep, hact, hsf, stepFails, stepCall]⟩
      | error e =>
          exact ⟨none, some e, by simp [execStep, hact, hsf, stepFails, stepCall]⟩
  | update_opportunity => simp [isWriteStep, hact] at h
  | other s' => simp [isWriteStep, hact] at h

/-! ## Concrete demonstration inputs (used by witnesses) -/

/-- A concrete oracle: raises on the create_task call whose subject is
Step B, succeeds on everything else. -/
def demoOracle : SfOracle := fun call =>
  match call with
  | .createTask _ subject _ _ => if subject = "Step B" then .error "boom" else .ok "00T1"
  | .createCase _ _ _ => .ok "5001"
  | .updateOpportunity _ _ => .ok "006"

/-- Demo step: a create_task step that succeeds under demoOracle. -/
def demoStepA : Step :=
  { salesforce_action := .create_task, title := "Step A"
    description := "call the customer", due_date := "2024-01-01" }

/-- Demo step: a create_task step that raises under demoOracle. -/
def demoStepB : Step :=
  { salesforce_action := .create_task, title := "Step B"
    description := "prepare proposal", due_date := "2024-01-02" }

/-- Demo step: a create_case step that succeeds under demoOracle. -/
def demoStepC : Step :=
  { salesforce_action := .create_case, title := "Step C"
    description := "open follow-up case", due_date := "2024-01-03" }

/-- Demo step: a step whose salesforce_action is send_email, the action
type the plan prompt allows but the executor does not dispatch on. -/
def demoStepEmail : Step :=
  { salesforce_action := .other "send_email", title := "Send renewal notice"
    description := "email the renewal notice", due_date := "2024-01-10" }

/-! ## C1 -/

/-- C1: for a three-step plan whose steps all issue CRM writes, with the
oracle raising on exactly one of the three calls, every step is attempted
(three result entries), the raising step is recorded as the single error
entry, the other two as success entries, and create_execution_report over
those results reports successful_steps = 2, failed_steps = 1 and
total_steps = 3. -/
theorem c1_three_step_plan_one_failure (sf : SfOracle) (aid ts : String) (a b c : Step)
    (ha : isWriteStep a = true) (hb : isWriteStep b = true) (hc : isWriteStep c = true)
    (hone : [stepFails sf aid a, stepFails sf aid b, stepFails sf aid c].count true = 1) :
    (execute_action_plan sf aid ⟨[a, b, c]⟩).1.length = 3 ∧
    ((execute_action_plan sf aid ⟨[a, b, c]⟩).1.filter
        (fun r => r.status = "error")).length = 1 ∧
    ((execute_action_plan sf aid ⟨[a, b, c]⟩).1.filter
        (fun r => r.status = "success")).length = 2 ∧
    (create_execution_report ts (execute_action_plan sf aid ⟨[a, b, c]⟩).1
        ⟨[a, b, c]⟩).successful_steps = 2 ∧
    (create_execution_report ts (execute_action_plan sf aid ⟨[a, b, c]⟩).1
        ⟨[a, b, c]⟩).failed_steps = 1 ∧
    (create_execution_report ts (execute_action_plan sf aid ⟨[a, b, c]⟩).1
        ⟨[a, b, c]⟩).total_steps = 3 := by
  obtain ⟨ia, ma, hea⟩ := execStep_write_entry sf aid a ha
  obtain ⟨ib, mb, heb⟩ := execStep_write_entry sf aid b hb
  obtain ⟨ic, mc, hec⟩ := execStep_write_entry sf aid c hc
  have hres : (execute_action_plan sf aid ⟨[a, b, c]⟩).1 =
      (execStep sf aid a).1 ++ (execStep sf aid b).1 ++ (execStep sf aid c).1 := by
    simp [execute_action_plan, List.append_assoc]
  rw [hea, heb, hec] at hres
  cases hfa : stepFails sf aid a <;> cases hfb : stepFails sf aid b <;>
    cases hfc : stepFails sf aid c <;>
    rw [hfa, hfb, hfc] at hone hres <;>
    simp at hone <;>
    simp [hres, create_execution_report]

/-- Witness for C1 at the concrete demo plan (Step B raises, A and C
succeed under demoOracle). -/
theorem c1_three_step_plan_one_failure_witness :
    (execute_action_plan demoOracle "001A" ⟨[demoStepA, demoStepB, demoStepC]⟩).1.length = 3 ∧
    ((execute_action_plan demoOracle "001A" ⟨[demoStepA, demoStepB, demoStepC]⟩).1.filter
        (fun r => r.status = "error")).length = 1 ∧
    ((execute_action_plan demoOracle "001A" ⟨[demoStepA, demoStepB, demoStepC]⟩).1.filter
        (fun r => r.status = "success")).length = 2 ∧
    (create_execution_report "2024-01-01T00:00:00"
        (execute_action_plan demoOracle "001A" ⟨[demoStepA, demoStepB, demoStepC]⟩).1
        ⟨[demoStepA, demoStepB, demoStepC]⟩).successful_steps = 2 ∧
    (create_execution_report "2024-01-01T00:00:00"
        (execute_action_plan demoOracle "001A" ⟨[demoStepA, demoStepB, demoStepC]⟩).1
        ⟨[demoStepA, demoStepB, demoStepC]⟩).failed_steps = 1 ∧
    (create_execution_report "2024-01-01T00:00:00"
        (execute_action_plan demoOracle "001A" ⟨[demoStepA, demoStepB, demoStepC]⟩).1
        ⟨[demoStepA, demoStepB, demoStepC]⟩).total_steps = 3 :=
  c1_three_step_plan_one_failure demoOracle "001A" "2024-01-01T00:00:00"
    demoStepA demoStepB demoStepC (by decide) (by decide) (by decide) (by decide)

/-! ## C6 -/

/-- C6: execute_action_plan performs no rollback.  Splitting a plan at any
point, the full run is exactly the prefix run followed by the suffix run:
the prefix's result entries (including their success statuses) and the
prefix's CRM write calls appear unchanged in the full run no matter what
the later steps do; and every CRM call ever issued is the create call of
one of the plan's own steps — the trace type has no delete or compensating
constructor and none is issued. -/
theorem c6_no_rollback :
    (∀ (sf : SfOracle) (aid : String) (pre post : List Step),
       execute_action_plan sf aid ⟨pre ++ post⟩ =
         ((execute_action_plan sf aid ⟨pre⟩).1 ++ (execute_action_plan sf aid ⟨post⟩).1,
          (execute_action_plan sf aid ⟨pre⟩).2 ++ (execute_action_plan sf aid ⟨post⟩).2)) ∧
    (∀ (sf : SfOracle) (aid : String) (plan : ActionPlan) (call : WriteCall),
       call ∈ (execute_action_plan sf aid plan).2 →
         ∃ s, s ∈ plan.steps ∧ stepCall aid s = some call) := by
  constructor
  · intro sf aid pre post
    simp only [execute_action_plan, List.foldl_append]
    rw [show (List.foldl
        (fun acc step =>
          let r := execStep sf aid step
          (acc.1 ++ r.1, acc.2 ++ r.2)) ([], []) pre : List StepResult × List WriteCall)
      = execute_action_plan sf aid ⟨pre⟩ from rfl]
    rw [execute_foldl_shift]
    rfl
  · intro sf aid plan
    obtain ⟨steps⟩ := plan
    induction steps with
    | nil => intro call h; simp [execute_action_plan] at h
    | cons s t ih =>
        intro call h
        rw [execute_cons] at h
        rcases List.mem_append.mp h with h1 | h2
        · exact ⟨s, by simp, execStep_call_mem sf aid s call h1⟩
        · obtain ⟨s', hs', hcall⟩ := ih call h2
          exact ⟨s', by simp [hs'], hcall⟩

/-- Witness for C6: instantiating the split equation at the demo plan and
the trace-membership part at the demo plan's first call. -/
theorem c6_no_rollback_witness :
    (execute_action_plan demoOracle "001A" ⟨[demoStepA] ++ [demoStepB, demoStepC]⟩ =
      ((execute_action_plan demoOracle "001A" ⟨[demoStepA]⟩).1 ++
         (execute_action_plan demoOracle "001A" ⟨[demoStepB, demoStepC]⟩).1,
       (execute_action_plan demoOracle "001A" ⟨[demoStepA]⟩).2 ++
         (execute_action_plan demoOracle "001A" ⟨[demoStepB, demoStepC]⟩).2)) ∧
    (∃ s, s ∈ (ActionPlan.mk [demoStepA]).steps ∧
       stepCall "001A" s =
         some (WriteCall.createTask "001A" "Step A" "call the customer" "2024-01-01")) :=
  ⟨c6_no_rollback.1 demoOracle "001A" [demoStepA] [demoStepB, demoStepC],
   c6_no_rollback.2 demoOracle "001A" ⟨[demoStepA]⟩
     (WriteCall.createTask "001A" "Step A" "call the customer" "2024-01-01") (by decide)⟩

/-! ## C8 -/

/-- C8: the executor dispatches only on create_task, update_opportunity
and create_case; a step with any other salesforce_action value (such as
send_email, which the plan prompt lists as allowed) produces no CRM call
and no result entry at all, so the results list can be shorter than the
plan: for the concrete one-step send_email plan the results list is empty
while the report's total_steps is 1. -/
theorem c8_unrecognized_action_dropped :
    (∀ (sf : SfOracle) (aid : String) (step : Step) (s : String),
        step.salesforce_action = SfAction.other s →
        execStep sf aid step = ([], [])) ∧
    (execute_action_plan demoOracle "001A" ⟨[demoStepEmail]⟩).1 = [] ∧
    (execute_action_plan demoOracle "001A" ⟨[demoStepEmail]⟩).2 = [] ∧
    (execute_action_plan demoOracle "001A" ⟨[demoStepEmail]⟩).1.length <
      (create_execution_report "2024-01-01T00:00:00"
        (execute_action_plan demoOracle "001A" ⟨[demoStepEmail]⟩).1
        ⟨[demoStepEmail]⟩).total_steps := by
  refine ⟨?_, by decide, by decide, by decide⟩
  intro sf aid step s h
  simp [execStep, h]

/-- Witness for C8: the universally quantified part applied to the
concrete send_email step. -/
theorem c8_unrecognized_action_dropped_witness :
    execStep demoOracle "001A" demoStepEmail = ([], []) :=
  c8_unrecognized_action_dropped.1 demoOracle "001A" demoStepEmail "send_email" rfl

/-! ## C2: the tenacity retry decorator on robust_salesforce_query -/

/-- Model of the tenacity retry loop with stop_after_attempt: the
underlying callable is indexed by invocation number (0-based); remaining
counts how many further attempts are allowed after the current one.  The
wait_exponential backoff only affects timing, not the result, and retry
fires on any raised exception (any .error), with no differentiation by
error value.  Returns the final outcome together with the total number of
invocations made. -/
def retryGo {E A : Type} (f : Nat → Except E A) (k : Nat) : Nat → Except E A × Nat
  | 0 =>
      (match f k with
       | .ok a => .ok a
       | .error e => .error e, k + 1)
  | r + 1 =>
      match f k with
      | .ok a => (.ok a, k + 1)
      | .error _ => retryGo f (k + 1) r

/-- robust_salesforce_query (src/extra.py lines 154-157): the query call
wrapped in @retry(stop=stop_after_attempt(3), wait=wait_exponential(...)),
i.e. at most three invocations in total (the initial attempt plus up to
two retries); after the third failure the last exception propagates. -/
def robust_salesforce_query {E A : Type} (query : Nat → Except E A) : Except E A × Nat :=
  retryGo query 0 2

/-- C2 counterexample: the claim's count of retries is wrong.  For an
underlying query that raises on every call, the wrapped call makes exactly
three invocations in total — not the four that "three more times after the
initial attempt" would give. -/
theorem c2_retry_count_counterexample :
    (robust_salesforce_query (fun _ => (Except.error "down" : Except String String))).2 = 3 ∧
    (robust_salesforce_query (fun _ => (Except.error "down" : Except String String))).2 ≠ 4 := by
  constructor <;> decide

/-- C2 (amended): the wrapper makes at most three invocations in total
(the initial attempt plus two retries).  An always-failing query is
invoked exactly three times and the final exception then propagates; a
query that fails twice and succeeds on the third invocation returns the
success after exactly three invocations.  Retry fires on any exception
value, with no differentiation between failures. -/
theorem c2_retry_three_attempts_total :
    (∀ (E A : Type) (f : Nat → Except E A) (e : Nat → E),
        (∀ k, f k = .error (e k)) →
        robust_salesforce_query f = (.error (e 2), 3)) ∧
    (∀ (E A : Type) (f : Nat → Except E A) (e0 e1 : E) (a : A),
        f 0 = .error e0 → f 1 = .error e1 → f 2 = .ok a →
        robust_salesforce_query f = (.ok a, 3)) := by
  constructor
  · intro E A f e hf
    simp [robust_salesforce_query, retryGo, hf 0, hf 1, hf 2]
  · intro E A f e0 e1 a h0 h1 h2
    simp [robust_salesforce_query, retryGo, h0, h1, h2]

/-- Witness for C2 (amended) at concrete query functions. -/
theorem c2_retry_three_attempts_total_witness :
    robust_salesforce_query (fun _ => (Except.error "down" : Except String String)) =
      (.error "down", 3) ∧
    robust_salesforce_query
        (fun k => if k < 2 then (Except.error "down" : Except String Nat) else .ok 7) =
      (.ok 7, 3) :=
  ⟨c2_retry_three_attempts_total.1 String String (fun _ => .error "down") (fun _ => "down")
      (fun _ => rfl),
   c2_retry_three_attempts_total.2 String Nat
      (fun k => if k < 2 then .error "down" else .ok 7) "down" "down" 7 rfl rfl rfl⟩

/-! ## C3: analyze_account_health (src/Frameworks/langgraph.py lines 60-94) -/

/-- The summary block produced by fetch_salesforce_data and consumed by
analyze_account_health.  total_opportunity_value is the float sum of open
opportunity amounts, embedded as an exact rational. -/
structure HealthSummary where
  total_contacts : Nat
  open_opportunities : Nat
  total_opportunity_value : ℚ
  open_cases : Nat
deriving DecidableEq, Repr

/-- The account fields analyze_account_health reads:
account.get(AnnualRevenue, 0), embedded with the default applied. -/
structure HealthAccount where
  annual_revenue : ℚ
deriving DecidableEq, Repr

/-- The dict returned by analyze_account_health. -/
structure HealthResult where
  health_score : Int
  insights : List String
  risks : List String
  summary : HealthSummary
deriving DecidableEq, Repr

/-- analyze_account_health: start from 10; subtract 2 when there are no
open opportunities, 1 more when the pipeline value is below one tenth of
annual revenue (revenue * 0.1 embedded exactly as revenue / 10), 2 more
when more than five cases are open; clamp with max(1, score).  A strong
contact count only adds an insight. -/
def analyze_account_health (account : HealthAccount) (summary : HealthSummary) :
    HealthResult :=
  let score0 : Int := 10
  let risks0 : List String := []
  let score1 := if summary.open_opportunities = 0 then score0 - 2 else score0
  let risks1 := if summary.open_opportunities = 0 then
      risks0 ++ ["No open opportunities - potential churn risk"] else risks0
  let score2 := if summary.total_opportunity_value < account.annual_revenue / 10 then
      score1 - 1 else score1
  let risks2 := if summary.total_opportunity_value < account.annual_revenue / 10 then
      risks1 ++ ["Low pipeline value relative to annual revenue"] else risks1
  let score3 := if summary.open_cases > 5 then score2 - 2 else score2
  let risks3 := if summary.open_cases > 5 then
      risks2 ++ ["High number of open cases (" ++ toString summary.open_cases ++ ")"]
      else risks2
  let insights := if summary.total_contacts > 5 then
      ["Strong relationship with multiple contacts"] else []
  { health_score := max 1 score3, insights := insights, risks := risks3,
    summary := summary }

/-- C3: the health score is a deterministic function of the inputs, always
lies in [1, 10], and equals the baseline 10 minus the three fixed
deductions (2 for zero open opportunities, 1 for pipeline below a tenth of
annual revenue, 2 for more than five open cases), clamped to at least 1. -/
theorem c3_health_score_bounds_and_formula (account : HealthAccount)
    (summary : HealthSummary) :
    1 ≤ (analyze_account_health account summary).health_score ∧
    (analyze_account_health account summary).health_score ≤ 10 ∧
    (analyze_account_health account summary).health_score =
      max 1 (10 - (if summary.open_opportunities = 0 then 2 else 0)
               - (if summary.total_opportunity_value < account.annual_revenue / 10
                  then 1 else 0)
               - (if summary.open_cases > 5 then 2 else 0)) := by
  simp only [analyze_account_health]
  split_ifs <;> simp

/-! ## C4: get_account_context (src/Frameworks/autogen.py lines 39-64) -/

/-- Group a digit list (most significant first) in threes with commas,
modelling the Python format spec :,.0f on a whole number. -/
def groupRev : List Char → List Char
  | c1 :: c2 :: c3 :: c4 :: rest => c1 :: c2 :: c3 :: ',' :: groupRev (c4 :: rest)
  | l => l

/-- Render a whole monetary amount with thousands separators, as the
f-string placeholder {x:,.0f} does for a nonnegative whole value. -/
def formatMoney (n : Nat) : String :=
  String.mk ((groupRev (toString n).data.reverse).reverse)

/-- The account record fields read by get_account_context; keys absent
from the CRM response are None (the .get defaults apply at use sites). -/
structure CtxAccount where
  name : String
  industry : Option String
  annual_revenue : Option Nat
  number_of_employees : Option Nat
deriving DecidableEq, Repr

/-- An opportunity record as read by the context formatter; a missing
IsClosed key is falsy, embedded as is_closed = false.  Amounts are whole
currency values. -/
structure CtxOpportunity where
  is_closed : Bool
  amount : Option Nat
deriving DecidableEq, Repr

/-- A case record as read by the context formatter; .get(Status) is None
when the key is missing, and None != Closed counts as open. -/
structure CtxCase where
  status : Option String
deriving DecidableEq, Repr

/-- len([o for o in opportunities if not o.get(IsClosed)]). -/
def openOppCount (opportunities : List CtxOpportunity) : Nat :=
  (opportunities.filter (fun o => !o.is_closed)).length

/-- sum(o.get(Amount, 0) for o in opportunities if not o.get(IsClosed)). -/
def openPipelineValue (opportunities : List CtxOpportunity) : Nat :=
  ((opportunities.filter (fun o => !o.is_closed)).map (fun o => o.amount.getD 0)).sum

/-- len([c for c in cases if c.get(Status) != Closed]). -/
def openCaseCount (cases : List CtxCase) : Nat :=
  (cases.filter (fun c => c.status ≠ some "Closed")).length

/-- get_account_context: the f-string of src/Frameworks/autogen.py lines
47-62 (interior indentation reproduced up to insignificant whitespace;
the claims concern the embedded field values and counts). -/
def get_account_context (account : CtxAccount) (opportunities : List CtxOpportunity)
    (cases : List CtxCase) : String :=
  "\n        Account Information:\n        - Name: " ++ account.name ++
  "\n        - Industry: " ++ account.industry.getD "N/A" ++
  "\n        - Annual Revenue: $" ++ formatMoney (account.annual_revenue.getD 0) ++
  "\n        - Number of Employees: " ++
    (match account.number_of_employees with
     | some n => toString n
     | none => "N/A") ++
  "\n\n        Opportunities:\n        - Total: " ++ toString opportunities.length ++
  "\n        - Open: " ++ toString (openOppCount opportunities) ++
  "\n        - Pipeline Value: $" ++ formatMoney (openPipelineValue opportunities) ++
  "\n\n        Support Cases:\n        - Total: " ++ toString cases.length ++
  "\n        - Open: " ++ toString (openCaseCount cases) ++
  "\n        "

/-- t occurs contiguously inside s. -/
def containsSub (s t : String) : Prop := t.data <:+: s.data

/-- Prepending on the left preserves infixes. -/
theorem infix_append_left {α : Type} {t r : List α} (l : List α) (h : t <:+: r) :
    t <:+: l ++ r := by
  obtain ⟨p, q, rfl⟩ := h
  exact ⟨l ++ p, q, by simp⟩

/-- C4: the formatted account context contains the account name, the
industry (when present), and the formatted annual revenue, and the
aggregate counts it embeds are the number of opportunity records whose
closed flag is false and the number of case records whose status is not
Closed. -/
theorem c4_context_contains_fields_and_counts (account : CtxAccount)
    (opportunities : List CtxOpportunity) (cases : List CtxCase) :
    containsSub (get_account_context account opportunities cases) account.name ∧
    (∀ ind, account.industry = some ind →
      containsSub (get_account_context account opportunities cases) ind) ∧
    containsSub (get_account_context account opportunities cases)
      (formatMoney (account.annual_revenue.getD 0)) ∧
    containsSub (get_account_context account opportunities cases)
      (toString (openOppCount opportunities)) ∧
    containsSub (get_account_context account opportunities cases)
      (toString (openCaseCount cases)) ∧
    openOppCount opportunities =
      (opportunities.filter (fun o => o.is_closed = false)).length ∧
    openCaseCount cases =
      (cases.filter (fun c => c.status ≠ some "Closed")).length := by
  refine ⟨?_, ?_, ?_, ?_, ?_, ?_, rfl⟩
  · unfold containsSub
    simp only [get_account_context, String.data_append, List.append_assoc]
    apply infix_append_left
    exact (List.prefix_append _ _).isInfix
  · intro ind hind
    unfold containsSub
    simp only [get_account_context, hind, Option.getD_some, String.data_append,
      List.append_assoc]
    apply infix_append_left
    apply infix_append_left
    apply infix_append_left
    exact (List.prefix_append _ _).isInfix
  · unfold containsSub
    simp only [get_account_context, String.data_append, List.append_assoc]
    apply infix_append_left
    apply infix_append_left
    apply infix_append_left
    apply infix_append_left
    apply infix_append_left
    exact (List.prefix_append _ _).isInfix
  · unfold containsSub
    simp only [get_account_context, String.data_append, List.append_assoc]
    iterate 11 apply infix_append_left
    exact (List.prefix_append _ _).isInfix
  · unfold containsSub
    simp only [get_account_context, String.data_append, List.append_assoc]
    iterate 17 apply infix_append_left
    exact (List.prefix_append _ _).isInfix
  · simp only [openOppCount]
    congr 1
    apply List.filter_congr
    intro o _
    cases h : o.is_closed <;> simp [h]

/-- Concrete account for the C4 witness. -/
def demoCtxAccount : CtxAccount :=
  { name := "Acme Corporation", industry := some "Technology",
    annual_revenue := some 5000000, number_of_employees := some 500 }

/-- Concrete opportunity list for the C4 witness: one open, one closed. -/
def demoCtxOpps : List CtxOpportunity :=
  [{ is_closed := false, amount := some 100000 },
   { is_closed := true, amount := some 50000 }]

/-- Concrete case list for the C4 witness: one open, one closed. -/
def demoCtxCases : List CtxCase :=
  [{ status := some "New" }, { status := some "Closed" }]

/-- Witness for C4: at the concrete account, the context contains the
industry string, and the embedded counts are 1 and 1. -/
theorem c4_context_contains_fields_and_counts_witness :
    containsSub (get_account_context demoCtxAccount demoCtxOpps demoCtxCases)
      "Technology" ∧
    openOppCount demoCtxOpps =
      (demoCtxOpps.filter (fun o => o.is_closed = false)).length ∧
    openCaseCount demoCtxCases =
      (demoCtxCases.filter (fun c => c.status ≠ some "Closed")).length :=
  ⟨(c4_context_contains_fields_and_counts demoCtxAccount demoCtxOpps
      demoCtxCases).2.1 "Technology" rfl,
   (c4_context_contains_fields_and_counts demoCtxAccount demoCtxOpps
      demoCtxCases).2.2.2.2.2.1,
   (c4_context_contains_fields_and_counts demoCtxAccount demoCtxOpps
      demoCtxCases).2.2.2.2.2.2⟩

/-! ## C5: NextBestActionRecommendation round-trip
(src/Frameworks/crewai.py lines 32-38) -/

/-- A JSON value, the target of pydantic model_dump / source of model
validation for the recommendation model. -/
inductive JValue where
  | str (s : String)
  | num (q : ℚ)
  | boolean (b : Bool)
  | null
  | arr (elems : List JValue)
  | obj (fields : List (String × JValue))

/-- NextBestActionRecommendation (pydantic BaseModel): title, description,
priority, rationale, expected_impact are strings, required_resources a
list of strings. -/
structure NextBestActionRecommendation where
  title : String
  description : String
  priority : String
  rationale : String
  expected_impact : String
  required_resources : List String
deriving DecidableEq, Repr

/-- Serialization (pydantic model_dump / model_dump_json): each declared
field becomes one JSON object entry. -/
def NextBestActionRecommendation.toJson (r : NextBestActionRecommendation) : JValue :=
  .obj [("title", .str r.title),
        ("description", .str r.description),
        ("priority", .str r.priority),
        ("rationale", .str r.rationale),
        ("expected_impact", .str r.expected_impact),
        ("required_resources", .arr (r.required_resources.map JValue.str))]

/-- Field lookup in a JSON object. -/
def jLookup (k : String) : JValue → Option JValue
  | .obj fields => (fields.find? (fun p => p.1 = k)).map (fun p => p.2)
  | _ => none

/-- Decode a JSON string. -/
def jStr? : JValue → Option String
  | .str s => some s
  | _ => none

/-- Decode a JSON array of strings. -/
def jStrList? : JValue → Option (List String)
  | .arr elems => decodeStrings elems
  | _ => none
where
  decodeStrings : List JValue → Option (List String)
    | [] => some []
    | v :: vs =>
        match jStr? v, decodeStrings vs with
        | some s, some ss => some (s :: ss)
        | _, _ => none

/-- Deserialization (pydantic model_validate): every declared field must
be present with the declared type. -/
def NextBestActionRecommendation.fromJson? (j : JValue) :
    Option NextBestActionRecommendation := do
  let title ← (jLookup "title" j).bind jStr?
  let description ← (jLookup "description" j).bind jStr?
  let priority ← (jLookup "priority" j).bind jStr?
  let rationale ← (jLookup "rationale" j).bind jStr?
  let expected_impact ← (jLookup "expected_impact" j).bind jStr?
  let required_resources ← (jLookup "required_resources" j).bind jStrList?
  pure { title := title, description := description, priority := priority,
         rationale := rationale, expected_impact := expected_impact,
         required_resources := required_resources }

/-- Decoding a list of serialized strings recovers the list. -/
theorem decodeStrings_map_str (xs : List String) :
    jStrList?.decodeStrings (xs.map JValue.str) = some xs := by
  induction xs with
  | nil => rfl
  | cons x t ih => simp [jStrList?.decodeStrings, jStr?, ih]

/-- C5: serializing a recommendation and deserializing the result
succeeds, and the recovered value agrees with the original on title,
priority and rationale (indeed on every field). -/
theorem c5_recommendation_roundtrip (r : NextBestActionRecommendation) :
    ∃ r', NextBestActionRecommendation.fromJson?
            (NextBestActionRecommendation.toJson r) = some r' ∧
      r'.title = r.title ∧ r'.priority = r.priority ∧ r'.rationale = r.rationale ∧
      r' = r := by
  refine ⟨r, ?_, rfl, rfl, rfl, rfl⟩
  simp [NextBestActionRecommendation.toJson, NextBestActionRecommendation.fromJson?,
    jLookup, jStr?, jStrList?, List.find?, decodeStrings_map_str]

/-! ## C7: FrameworkOrchestrator.run_parallel_analysis
(src/Frameworks/salesforce_nba_unified.py) -/

/-- The mock account data dict passed to the frameworks. -/
structure UAccountData where
  id : String
  name : String
  revenue : ℚ
  employees : Nat
  opportunities : Nat
  cases : Nat
deriving DecidableEq, Repr

/-- An analysis dict returned by a framework variant: the common keys plus
the framework-specific payload. -/
structure UAnalysis where
  framework : String
  health_score : ℚ
  insights : List String
  extra : JValue

/-- A framework variant: a name and a pure analyze_account function. -/
structure UFramework where
  name : String
  analyze_account : UAccountData → UAnalysis

/-- CrewAIFramework.analyze_account: a fixed analysis independent of the
input (the 2-second sleep only simulates latency). -/
def crewAIFramework : UFramework :=
  { name := "CrewAI"
    analyze_account := fun _ =>
      { framework := "CrewAI", health_score := 8
        insights :=
          ["Multi-agent collaboration identified cross-sell opportunity",
           "Data analyst agent found revenue growth pattern",
           "Risk agent detected minor service issues"]
        extra := .obj [("DataAnalyst", .str "Identified 15% YoY growth"),
                       ("Strategist", .str "Recommended product expansion"),
                       ("RiskAnalyst", .str "Flagged 2 open high-priority cases")] } }

/-- LangGraphFramework.analyze_account (health_score 7.5 embedded as
15/2). -/
def langGraphFramework : UFramework :=
  { name := "LangGraph"
    analyze_account := fun _ =>
      { framework := "LangGraph", health_score := 15 / 2
        insights :=
          ["Workflow identified decision point for renewal",
           "Conditional routing suggests intervention needed",
           "State machine shows positive trajectory with risks"]
        extra := .arr [.str "fetch_data", .str "analyze", .str "risk_assessment",
                       .str "opportunity_identification"] } }

/-- AutoGenFramework.analyze_account (health_score 8.2 embedded as
41/5). -/
def autoGenFramework : UFramework :=
  { name := "AutoGen"
    analyze_account := fun _ =>
      { framework := "AutoGen", health_score := 41 / 5
        insights :=
          ["Collaborative analysis revealed expansion readiness",
           "Risk analyst identified low churn probability",
           "Consensus reached on growth strategy"]
        extra := .obj [("agreement_level", .num (17 / 20)),
                       ("dissenting_opinions",
                        .arr [.str "Timeline aggressive per ExecutionPlanner"]),
                       ("key_discussion_points",
                        .arr [.str "Budget availability", .str "Technical readiness"])] } }

/-- The orchestrator's frameworks dict, in insertion order. -/
def frameworks : List UFramework :=
  [crewAIFramework, langGraphFramework, autoGenFramework]

/-- The result a completed worker for index i holds. -/
def workerResult (d : UAccountData) (i : Nat) : Option UAnalysis :=
  (frameworks[i]?).map (fun f => f.analyze_account d)

/-- Run the submitted workers in an arbitrary completion order: each
worker computes its own framework's analysis of the shared read-only input
and stores it in its own future slot; no worker touches another's slot. -/
def runWorkers (order : List Nat) (d : UAccountData) : Nat → Option UAnalysis :=
  order.foldl
    (fun store i =>
      match frameworks[i]? with
      | some f => fun j => if j = i then some (f.analyze_account d) else store j
      | none => store)
    (fun _ => none)

/-- run_parallel_analysis: submit one worker per framework to the pool,
let them complete in some order, then collect each future's result keyed
by framework name, in the dict's insertion order. -/
def run_parallel_analysis (order : List Nat) (d : UAccountData) :
    List (String × Option UAnalysis) :=
  frameworks.enum.map (fun p => (p.2.name, runWorkers order d p.1))

/-- Sequential invocation of the three frameworks on the same input. -/
def run_sequential_analysis (d : UAccountData) : List (String × UAnalysis) :=
  frameworks.map (fun f => (f.name, f.analyze_account d))

/-- A slot no executed worker owns is never written. -/
theorem runWorkers_foldl_not_mem (d : UAccountData) (order : List Nat) (i : Nat)
    (store : Nat → Option UAnalysis) (h : i ∉ order) :
    (order.foldl
      (fun store i =>
        match frameworks[i]? with
        | some f => fun j => if j = i then some (f.analyze_account d) else store j
        | none => store)
      store) i = store i := by
  induction order generalizing store with
  | nil => rfl
  | cons a rest ih =>
      simp only [List.mem_cons, not_or] at h
      simp only [List.foldl_cons]
      rw [ih _ h.2]
      cases hfa : frameworks[a]? with
      | none => rfl
      | some f => simp [h.1]

/-- An executed worker's slot holds exactly its framework's analysis of
the input, whatever the completion order. -/
theorem runWorkers_foldl_mem (d : UAccountData) (order : List Nat) (i : Nat)
    (store : Nat → Option UAnalysis) (hmem : i ∈ order) (hlt : i < frameworks.length) :
    (order.foldl
      (fun store i =>
        match frameworks[i]? with
        | some f => fun j => if j = i then some (f.analyze_account d) else store j
        | none => store)
      store) i = workerResult d i := by
  induction order generalizing store with
  | nil => simp at hmem
  | cons a rest ih =>
      simp only [List.foldl_cons]
      by_cases hr : i ∈ rest
      · exact ih _ hr
      · have hia : i = a := by
          rcases List.mem_cons.mp hmem with h | h
          · exact h
          · exact absurd h hr
        subst hia
        rw [runWorkers_foldl_not_mem d rest i _ hr]
        have : frameworks[i]? = some (frameworks.get ⟨i, hlt⟩) := List.getElem?_eq_getElem hlt
        simp [this, workerResult]

/-- C7: running the three analysis variants concurrently is purely a
latency optimization.  For every input and every completion order that
runs each of the three workers, the collected mapping from framework name
to analysis equals what sequential invocation of the three frameworks
returns; the workers share nothing mutable beyond the read-only input. -/
theorem c7_parallel_equals_sequential (d : UAccountData) (order : List Nat)
    (h0 : 0 ∈ order) (h1 : 1 ∈ order) (h2 : 2 ∈ order) :
    run_parallel_analysis order d =
      (run_sequential_analysis d).map (fun p => (p.1, some p.2)) := by
  have e0 : runWorkers order d 0 = workerResult d 0 :=
    runWorkers_foldl_mem d order 0 _ h0 (by simp [frameworks])
  have e1 : runWorkers order d 1 = workerResult d 1 :=
    runWorkers_foldl_mem d order 1 _ h1 (by simp [frameworks])
  have e2 : runWorkers order d 2 = workerResult d 2 :=
    runWorkers_foldl_mem d order 2 _ h2 (by simp [frameworks])
  have henum : frameworks.enum =
      [(0, crewAIFramework), (1, langGraphFramework), (2, autoGenFramework)] := rfl
  have w0 : workerResult d 0 = some (crewAIFramework.analyze_account d) := rfl
  have w1 : workerResult d 1 = some (langGraphFramework.analyze_account d) := rfl
  have w2 : workerResult d 2 = some (autoGenFramework.analyze_account d) := rfl
  have hseq : run_sequential_analysis d =
      [(crewAIFramework.name, crewAIFramework.analyze_account d),
       (langGraphFramework.name, langGraphFramework.analyze_account d),
       (autoGenFramework.name, autoGenFramework.analyze_account d)] := rfl
  simp [run_parallel_analysis, henum, hseq, e0, e1, e2, w0, w1, w2]

/-- Witness for C7 at a concrete input and the completion order 2, 0, 1. -/
theorem c7_parallel_equals_sequential_witness :
    run_parallel_analysis [2, 0, 1]
        { id := "001XX000003DHPh", name := "Acme Corporation", revenue := 5000000,
          employees := 500, opportunities := 5, cases := 3 } =
      (run_sequential_analysis
        { id := "001XX000003DHPh", name := "Acme Corporation", revenue := 5000000,
          employees := 500, opportunities := 5, cases := 3 }).map
        (fun p => (p.1, some p.2)) :=
  c7_parallel_equals_sequential _ [2, 0, 1] (by decide) (by decide) (by decide)

/-! ## C10: generate_consensus and the agreement score
(src/Frameworks/salesforce_nba_unified.py lines 234-254) -/

/-- Python max over a nonempty list (embedding: 0 on the empty list, on
which Python max raises). -/
def listMax : List ℚ → ℚ
  | [] => 0
  | h :: t => t.foldl max h

/-- Python min over a nonempty list (embedding: 0 on the empty list). -/
def listMin : List ℚ → ℚ
  | [] => 0
  | h :: t => t.foldl min h

/-- The population variance of a list of rationals, the statistical
quantity the consensus field name suggests. -/
def popVariance (scores : List ℚ) : ℚ :=
  (scores.map (fun s => (s - scores.sum / (scores.length : ℚ)) ^ 2)).sum /
    (scores.length : ℚ)

/-- FrameworkOrchestrator._calculate_agreement: one minus a tenth of the
population variance of the health scores (the comment in the source says
"Normalize to 0-1"). -/
def calculate_agreement (analyses : List UAnalysis) : ℚ :=
  let scores := analyses.map (fun a => a.health_score)
  let avg_score := scores.sum / (scores.length : ℚ)
  let variance := (scores.map (fun s => (s - avg_score) ^ 2)).sum / (scores.length : ℚ)
  1 - variance / 10

/-- The consensus dict built by generate_consensus. -/
structure ConsensusRecord where
  average_health_score : ℚ
  health_score_variance : ℚ
  total_insights : Nat
  framework_agreement : ℚ
deriving DecidableEq, Repr

/-- FrameworkOrchestrator.generate_consensus: mean of the health scores,
the field named health_score_variance computed as max minus min, the
flattened insight count, and the agreement score. -/
def generate_consensus (all_analyses : List UAnalysis) : ConsensusRecord :=
  let health_scores := all_analyses.map (fun a => a.health_score)
  let all_insights := (all_analyses.map (fun a => a.insights)).flatten
  { average_health_score := health_scores.sum / (health_scores.length : ℚ)
    health_score_variance := listMax health_scores - listMin health_scores
    total_insights := all_insights.length
    framework_agreement := calculate_agreement all_analyses }

/-- The population variance is nonnegative. -/
theorem variance_expr_nonneg (scores : List ℚ) :
    0 ≤ (scores.map (fun s => (s - scores.sum / (scores.length : ℚ)) ^ 2)).sum /
      (scores.length : ℚ) := by
  apply div_nonneg
  · apply List.sum_nonneg
    intro x hx
    obtain ⟨s, _, rfl⟩ := List.mem_map.mp hx
    exact sq_nonneg _
  · positivity

/-- A bare analysis record carrying only a health score, for concrete
agreement computations. -/
def mkUA (q : ℚ) : UAnalysis :=
  { framework := "demo", health_score := q, insights := [], extra := .null }

/-- C10: the agreement score is 1 minus a tenth of the population variance
of the health scores, hence at most 1 for every nonempty analysis list,
but negative whenever the variance exceeds 10 — for scores 1 and 9 it is
-3/5, contradicting the normalize-to-0-1 comment; and the consensus field
health_score_variance is the range (max minus min) of the scores, which at
those same scores is 8 while the population variance is 16. -/
theorem c10_agreement_and_variance_field :
    (∀ analyses : List UAnalysis, analyses ≠ [] → calculate_agreement analyses ≤ 1) ∧
    calculate_agreement [mkUA 1, mkUA 9] < 0 ∧
    (∀ analyses : List UAnalysis,
      (generate_consensus analyses).health_score_variance =
        listMax (analyses.map (fun a => a.health_score)) -
          listMin (analyses.map (fun a => a.health_score))) ∧
    (generate_consensus [mkUA 1, mkUA 9]).health_score_variance = 8 ∧
    popVariance [1, 9] = 16 ∧
    (generate_consensus [mkUA 1, mkUA 9]).health_score_variance ≠
      popVariance [1, 9] := by
  refine ⟨?_, ?_, ?_, ?_, ?_, ?_⟩
  · intro analyses _
    have h := variance_expr_nonneg (analyses.map (fun a => a.health_score))
    simp only [calculate_agreement]
    linarith
  · norm_num [calculate_agreement, mkUA]
  · intro analyses
    rfl
  · norm_num [generate_consensus, mkUA, listMax, listMin]
  · norm_num [popVariance]
  · norm_num [generate_consensus, mkUA, listMax, listMin, popVariance]

/-- Witness for C10: the nonempty-list bound applied at the concrete
two-analysis list. -/
theorem c10_agreement_and_variance_field_witness :
    calculate_agreement [mkUA 1, mkUA 9] ≤ 1 ∧
    (generate_consensus [mkUA 1, mkUA 9]).health_score_variance =
      listMax ([mkUA 1, mkUA 9].map (fun a => a.health_score)) -
        listMin ([mkUA 1, mkUA 9].map (fun a => a.health_score)) :=
  ⟨c10_agreement_and_variance_field.1 [mkUA 1, mkUA 9] (by simp),
   c10_agreement_and_variance_field.2.2.1 [mkUA 1, mkUA 9]⟩

/-! ## C9: calculate_account_metrics
(src/Frameworks/crewai/src/tools/analysis_tools.py lines 46-75) -/

/-- An opportunity record as read by the metrics tool: amount via
.get(amount, 0), truthy is_closed / is_won flags. -/
structure MOpportunity where
  amount : Option ℚ
  is_closed : Bool
  is_won : Bool
deriving DecidableEq, Repr

/-- The account_data dict fields the metrics tool reads:
.get(opportunities, []) and .get(annual_revenue, 0), with the defaults
applied. -/
structure MetricsInput where
  opportunities : List MOpportunity
  annual_revenue : ℚ
deriving DecidableEq, Repr

/-- The metrics dict returned by calculate_account_metrics. -/
structure AccountMetrics where
  total_pipeline_value : ℚ
  won_revenue : ℚ
  win_rate : ℚ
  average_deal_size : ℚ
  open_opportunities : Nat
  growth_potential : String
deriving DecidableEq, Repr

/-- calculate_account_metrics: pipeline and won sums, win rate guarded by
the nonemptiness of the opportunity list, average deal size guarded by the
nonemptiness of the closed-deal sublist, and the growth label comparing
pipeline to a fifth of annual revenue (revenue * 0.2 embedded exactly as
revenue / 5). -/
def calculate_account_metrics (account_data : MetricsInput) : AccountMetrics :=
  let opportunities := account_data.opportunities
  let total_pipeline :=
    ((opportunities.filter (fun o => !o.is_closed)).map (fun o => o.amount.getD 0)).sum
  let won_revenue :=
    ((opportunities.filter (fun o => o.is_won)).map (fun o => o.amount.getD 0)).sum
  let win_rate :=
    if opportunities.isEmpty then 0
    else ((opportunities.filter (fun o => o.is_won)).length : ℚ) /
      (opportunities.length : ℚ)
  let closed_deals := opportunities.filter (fun o => o.is_closed)
  let avg_deal_size :=
    if closed_deals.isEmpty then 0
    else (closed_deals.map (fun o => o.amount.getD 0)).sum / (closed_deals.length : ℚ)
  { total_pipeline_value := total_pipeline
    won_revenue := won_revenue
    win_rate := win_rate
    average_deal_size := avg_deal_size
    open_opportunities := (opportunities.filter (fun o => !o.is_closed)).length
    growth_potential :=
      if total_pipeline > account_data.annual_revenue / 5 then "High" else "Medium" }

/-- C9: the metric divisions are total.  With no opportunity records the
win rate is 0, with no closed deals the average deal size is 0, and each
division only runs under a guard that makes its denominator a positive
count, so no division-by-zero branch is reachable. -/
theorem c9_metrics_guarded_divisions (account_data : MetricsInput) :
    (account_data.opportunities = [] →
      (calculate_account_metrics account_data).win_rate = 0) ∧
    (account_data.opportunities.filter (fun o => o.is_closed) = [] →
      (calculate_account_metrics account_data).average_deal_size = 0) ∧
    (account_data.opportunities ≠ [] →
      ((account_data.opportunities.length : ℚ) ≠ 0 ∧
        (calculate_account_metrics account_data).win_rate =
          ((account_data.opportunities.filter (fun o => o.is_won)).length : ℚ) /
            (account_data.opportunities.length : ℚ))) ∧
    (account_data.opportunities.filter (fun o => o.is_closed) ≠ [] →
      (((account_data.opportunities.filter (fun o => o.is_closed)).length : ℚ) ≠ 0 ∧
        (calculate_account_metrics account_data).average_deal_size =
          ((account_data.opportunities.filter (fun o => o.is_closed)).map
            (fun o => o.amount.getD 0)).sum /
            ((account_data.opportunities.filter (fun o => o.is_closed)).length : ℚ))) := by
  refine ⟨?_, ?_, ?_, ?_⟩
  · intro h
    simp [calculate_account_metrics, h]
  · intro h
    simp [calculate_account_metrics, h]
  · intro h
    constructor
    · exact Nat.cast_ne_zero.mpr (List.length_pos.mpr h).ne'
    · simp [calculate_account_metrics, List.isEmpty_iff, h]
  · intro h
    constructor
    · exact Nat.cast_ne_zero.mpr (List.length_pos.mpr h).ne'
    · simp [calculate_account_metrics, List.isEmpty_iff, h]

/-- Witness for C9: the zero cases at an empty account and the guarded
cases at a one-opportunity account. -/
theorem c9_metrics_guarded_divisions_witness :
    (calculate_account_metrics { opportunities := [], annual_revenue := 1000 }).win_rate
      = 0 ∧
    (calculate_account_metrics
      { opportunities := [], annual_revenue := 1000 }).average_deal_size = 0 ∧
    ((([{ amount := some 100, is_closed := true, is_won := true }] :
        List MOpportunity).length : ℚ) ≠ 0 ∧
      (calculate_account_metrics
        { opportunities := [{ amount := some 100, is_closed := true, is_won := true }],
          annual_revenue := 1000 }).win_rate =
        ((([{ amount := some 100, is_closed := true, is_won := true }] :
            List MOpportunity).filter (fun o => o.is_won)).length : ℚ) /
          ((([{ amount := some 100, is_closed := true, is_won := true }] :
            List MOpportunity)).length : ℚ)) :=
  ⟨(c9_metrics_guarded_divisions { opportunities := [], annual_revenue := 1000 }).1 rfl,
   (c9_metrics_guarded_divisions
      { opportunities := [], annual_revenue := 1000 }).2.1 rfl,
   by
     have h := (c9_metrics_guarded_divisions
       { opportunities := [{ amount := some 100, is_closed := true, is_won := true }],
         annual_revenue := 1000 }).2.2.1 (by simp)
     simpa using h⟩
